import Mathlib

/-!
# Verification of the chalkboard-physics entity simulation core

Shallow embedding of the entity simulation and interaction loop of the
`chalkboard-physics` repository (source files
`src/components/PhysicsCanvas.tsx` and `src/lib/entityFactory.ts`),
together with theorems settling the frozen claims about it.

Modelling conventions:
* JavaScript numbers are modelled as exact rationals (`ℚ`); the float
  comparison `Matter.Vector.magnitude (sub p q) < 45` is translated to the
  equivalent squared-distance comparison `dist2 p q < 45 * 45`, and
  `Math.floor (Math.hypot dx dy / 2)` to an exact integer square-root
  computation (`ratSqrtFloor`), both avoiding irrational intermediate values.
* Bodies are records mirroring the `Matter.Body` fields and the ad-hoc tag
  fields (`isHumanoid`, `isBubble`, `containedEntity`, ...) that the
  TypeScript code attaches to body objects.  Reference identity of body
  objects is modelled by a numeric `id`; the registry lists (`wallsRef`,
  `entitiesRef`, `currentStrokeBodiesRef`) hold copies of the referenced
  bodies, which is faithful for the modelled operations because none of them
  mutates a body in place while it sits in a list (they only add and remove).
* Engine-level physics (integration, collision response) is out of scope, as
  in the specification; only the queries the core uses (`Query.point`,
  `Bounds.overlaps`) are modelled, from their Matter.js semantics on the
  shapes the program creates (axis-aligned, since the code pins angles to 0).
* `Math.random()` outcomes are passed in explicitly (`AiRand`).
* Sound-manager calls are modelled as an append-only event log where a claim
  mentions them (`SE.bubblePop` for `soundManager.playBubblePop()`).
-/

/-- A 2-D point or vector with exact rational coordinates. -/
abbrev Pt : Type := ℚ × ℚ

/-- Squared Euclidean distance between two points.  The source compares
`Matter.Vector.magnitude (Matter.Vector.sub h.position b.position) < 45`;
for nonnegative reals `√d2 < r ↔ d2 < r ^ 2`, so comparisons are made on
squares to stay inside `ℚ`. -/
def dist2 (p q : Pt) : ℚ :=
  (p.1 - q.1) * (p.1 - q.1) + (p.2 - q.2) * (p.2 - q.2)

/-- `⌊√q⌋` for a rational `q ≥ 0`, computed exactly:
`√(a/b) = √(a*b)/b`, and flooring a real after dividing by a positive
integer commutes with flooring first. -/
def ratSqrtFloor (q : ℚ) : ℕ :=
  Nat.sqrt (q.num.toNat * q.den) / q.den

/-- Sound-effect events that the modelled operations emit. -/
inductive SE
  | bubblePop
  | pop
  | spawn
  | jump
  deriving DecidableEq, Repr

/-- The collision shape of a body, as created by the program: plain circles
(balls, bubbles, stroke segments), axis-aligned rectangles (ground,
humanoids, ladder bounding shape), or a compound of equal-radius circles at
absolute centers (the fused drawn-line body from `handlePointerUp`). -/
inductive BodyShape
  | circle (r : ℚ)
  | rect (w h : ℚ)
  | compound (r : ℚ) (centers : List Pt)
  deriving DecidableEq, Repr

/-- A physics body together with the ad-hoc tag fields the TypeScript code
stores on it.  `id` models JavaScript reference identity.  Fields of the
Matter body that no modelled rule reads (restitution, friction, density,
render style) are omitted. -/
structure Body where
  id : ℕ := 0
  label : String := ""
  shape : BodyShape := BodyShape.circle 0
  pos : Pt := (0, 0)
  vel : Pt := (0, 0)
  angle : ℚ := 0
  force : Pt := (0, 0)
  mass : ℚ := 1
  isStatic : Bool := false
  category : ℕ := 0x0001
  mask : ℕ := 0xFFFFFFFF
  isHumanoid : Bool := false
  isBubble : Bool := false
  isFloating : Bool := false
  isLine : Bool := false
  isOnLadderTop : Bool := false
  createdAt : Option ℕ := none
  inBubble : Bool := false
  containedEntity : Option ℕ := none
  deriving DecidableEq, Repr

/-- `Matter.Query.point` membership test for one body: whether the body's
shape contains the point (angles are pinned to 0 by the program for every
shape this is ever applied to). -/
def containsPoint (b : Body) (p : Pt) : Bool :=
  match b.shape with
  | BodyShape.circle r => decide (dist2 b.pos p ≤ r * r)
  | BodyShape.rect w h =>
      decide (|p.1 - b.pos.1| ≤ w / 2 ∧ |p.2 - b.pos.2| ≤ h / 2)
  | BodyShape.compound r cs => cs.any (fun c => decide (dist2 c p ≤ r * r))

/-- `Matter.Query.point(bodies, p)`: the bodies whose shape contains `p`. -/
def queryPoint (bodies : List Body) (p : Pt) : List Body :=
  bodies.filter (fun b => containsPoint b p)

/-- The minimum corner of a body's axis-aligned bounding box
(`body.bounds.min`). -/
def boundsMin (b : Body) : Pt :=
  match b.shape with
  | BodyShape.circle r => (b.pos.1 - r, b.pos.2 - r)
  | BodyShape.rect w h => (b.pos.1 - w / 2, b.pos.2 - h / 2)
  | BodyShape.compound r cs =>
      match cs with
      | [] => b.pos
      | c :: rest =>
          rest.foldl (fun m c' => (min m.1 (c'.1 - r), min m.2 (c'.2 - r)))
            (c.1 - r, c.2 - r)

/-- The maximum corner of a body's axis-aligned bounding box
(`body.bounds.max`). -/
def boundsMax (b : Body) : Pt :=
  match b.shape with
  | BodyShape.circle r => (b.pos.1 + r, b.pos.2 + r)
  | BodyShape.rect w h => (b.pos.1 + w / 2, b.pos.2 + h / 2)
  | BodyShape.compound r cs =>
      match cs with
      | [] => b.pos
      | c :: rest =>
          rest.foldl (fun m c' => (max m.1 (c'.1 + r), max m.2 (c'.2 + r)))
            (c.1 + r, c.2 + r)

/-- `Matter.Bounds.overlaps(a.bounds, b.bounds)`. -/
def boundsOverlap (a b : Body) : Bool :=
  decide ((boundsMin a).1 ≤ (boundsMax b).1 ∧ (boundsMax a).1 ≥ (boundsMin b).1 ∧
    (boundsMax a).2 ≥ (boundsMin b).2 ∧ (boundsMin a).2 ≤ (boundsMax b).2)

/-! ## Collision categories (`src/lib/entityFactory.ts` and
`PhysicsCanvas.tsx`) -/

def CATEGORY_DEFAULT : ℕ := 0x0001
def CATEGORY_DYNAMIC : ℕ := 0x0002
def CATEGORY_LADDER : ℕ := 0x0004
def CATEGORY_HUMANOID : ℕ := 0x0008
def CATEGORY_PLATEFORM : ℕ := 0x0020

/-- `const defaultMask = 0x0001 | 0x0002 | 0x0020` from the AI tick's
collision-filtering step. -/
def defaultMask : ℕ := 0x0001 ||| 0x0002 ||| 0x0020

/-- `defaultMask & ~CATEGORY_PLATEFORM` with 32-bit `~`. -/
def climbMask : ℕ := defaultMask &&& (0xFFFFFFFF ^^^ CATEGORY_PLATEFORM)

/-! ## Entity factory (`src/lib/entityFactory.ts`) -/

/-- `createEntity(x, y)`: a bouncy ball, `Bodies.circle(x, y, 10)` with
category `CATEGORY_DYNAMIC` and mask `DEFAULT | DYNAMIC | HUMANOID`. -/
def createEntity (i : ℕ) (x y : ℚ) : Body :=
  { id := i
    shape := BodyShape.circle 10
    pos := (x, y)
    category := CATEGORY_DYNAMIC
    mask := CATEGORY_DEFAULT ||| CATEGORY_DYNAMIC ||| CATEGORY_HUMANOID }

/-- `createBubbleEntity(x, y)`: `Bodies.circle(x, y, 30)`, tagged
`isBubble`, `containedEntity = null`. -/
def createBubbleEntity (i : ℕ) (x y : ℚ) : Body :=
  { id := i
    shape := BodyShape.circle 30
    pos := (x, y)
    mass := 9 / 32000
    category := CATEGORY_DYNAMIC
    mask := CATEGORY_DEFAULT ||| CATEGORY_DYNAMIC ||| CATEGORY_HUMANOID
    isBubble := true
    containedEntity := none }

/-- `createHumanoidEntity(x, y)`: `Bodies.rectangle(x, y, 20, 34)` with
infinite rotational inertia, category `CATEGORY_HUMANOID`, mask
`CATEGORY_DEFAULT | CATEGORY_DYNAMIC`, tagged `isHumanoid`,
`inBubble = false`. -/
def createHumanoidEntity (i : ℕ) (x y : ℚ) : Body :=
  { id := i
    shape := BodyShape.rect 20 34
    pos := (x, y)
    mass := 34 / 25
    category := CATEGORY_HUMANOID
    mask := CATEGORY_DEFAULT ||| CATEGORY_DYNAMIC
    isHumanoid := true
    inBubble := false }

/-- `createLadderEntity(x, y)`: a compound of rails and rungs whose overall
bounding box is a `60 × 180` rectangle centered at `(x, y)`; the AI only
reads its bounds and center, and the eraser only reads its label, so the
bounding rectangle models it. -/
def createLadderEntity (i : ℕ) (x y : ℚ) : Body :=
  { id := i
    label := "Ladder"
    shape := BodyShape.rect 60 180
    pos := (x, y)
    category := CATEGORY_LADDER
    mask := CATEGORY_DEFAULT }

/-- The ground created in the mount effect:
`Bodies.rectangle(width / 2, height - 120, width, 80, { isStatic: true,
label: 'Ground' })`; the initialization then pushes it into `wallsRef`. -/
def mkGround (width height : ℚ) : Body :=
  { id := 0
    label := "Ground"
    shape := BodyShape.rect width 80
    pos := (width / 2, height - 120)
    isStatic := true }

/-! ## Bubble capture pass (`PhysicsCanvas.tsx`, `beforeUpdate`, lines
190–205)

The `beforeUpdate` handler filters the world's bodies into `humanoids` and
`bubbles` and runs, for every humanoid `h` not already `inBubble`, a scan
over the bubbles: the first bubble with empty `containedEntity` whose
center is within distance 45 of `h` captures it (`h.inBubble = true`,
`b.containedEntity = h`, `h.collisionFilter.mask = 0x0001`) and the scan
breaks.  The capture sound is not modelled here (no claim mentions it). -/

/-- State of one capture pass: the filtered humanoid and bubble body lists,
in world order. -/
structure CaptureState where
  hs : List Body
  bs : List Body
  deriving DecidableEq, Repr

/-- A bubble is *eligible* to capture the humanoid `h` when it is empty
and its center is within the 45 px capture distance of `h`'s center
(`dist < 45` on reals equals `dist² < 45²` on the exact rationals). -/
def eligible (h b : Body) : Prop :=
  b.containedEntity = none ∧ dist2 h.pos b.pos < 45 * 45

instance (h b : Body) : Decidable (eligible h b) := by
  rw [eligible]
  infer_instance

/-- The inner `for (const b of bubbles)` loop for one humanoid `h`:
returns the updated bubble list and the updated humanoid. -/
def captureScan (h : Body) : List Body → List Body × Body
  | [] => ([], h)
  | b :: rest =>
      if eligible h b then
        ({ b with containedEntity := some h.id } :: rest,
         { h with inBubble := true, mask := 0x0001 })
      else
        let r := captureScan h rest
        (b :: r.1, r.2)

/-- One iteration of `humanoids.forEach`: a humanoid already `inBubble` is
skipped, otherwise the bubble scan runs. -/
def captureOne (bs : List Body) (h : Body) : List Body × Body :=
  if h.inBubble then (bs, h) else captureScan h bs

/-- The capture pass over the humanoid list, threading the bubble list. -/
def capturePassAux : List Body → List Body → List Body × List Body
  | bs, [] => (bs, [])
  | bs, h :: hs =>
      let r1 := captureOne bs h
      let r2 := capturePassAux r1.1 hs
      (r2.1, r1.2 :: r2.2)

/-- The whole bubble-capture pass of one physics step. -/
def capturePass (s : CaptureState) : CaptureState :=
  let r := capturePassAux s.bs s.hs
  { hs := r.2, bs := r.1 }

/-! ## Humanoid AI tick (`PhysicsCanvas.tsx`, `aiInterval`, lines 342–483)

`aiInterval` runs every 100 ms over `humanoidDataRef`; `aiTickOne` models
one iteration of that `forEach` for one humanoid record.  The
`Math.random()` draws it makes are supplied through `AiRand`.  Sound calls
(`playJump`, `playFootstep`, `playSpawn`) are not modelled (no claim
mentions them); `Matter.Body.applyForce` accumulates into `Body.force`,
with `engine.gravity = { y: 1, scale: 0.001 }` from `Engine.create`. -/

/-- One `HumanoidData` record of `humanoidDataRef`. -/
structure HumanoidData where
  direction : ℚ
  legPhase : ℚ
  stuckCounter : ℕ
  isClimbing : Bool := false
  hangingCounter : ℕ := 0
  deriving DecidableEq, Repr

/-- The random draws one AI-tick iteration can consume:
`grabRoll` is `Math.random() < 0.2` for the hang check, `grabDur` is
`30 + Math.floor(Math.random() * 30)`, and `jumpRoll` is
`Math.random() < 0.02` for the idle hop. -/
structure AiRand where
  grabRoll : Bool
  grabDur : ℕ
  jumpRoll : Bool
  deriving DecidableEq, Repr

/-- The ambient lists the AI tick queries: `wallsRef.current` and
`entitiesRef.current`. -/
structure AiCtx where
  walls : List Body
  entities : List Body
  deriving DecidableEq, Repr

/-- The `for (const ladder of ladders)` search: the first ladder whose
bounding box overlaps the humanoid's (the loop `break`s at the first
match). -/
def ladderScan (b : Body) : List Body → Option Body
  | [] => none
  | ld :: rest => if boundsOverlap b ld then some ld else ladderScan b rest

/-- The hang-start condition (`PhysicsCanvas.tsx` lines 406–416): not
already hanging, a wall body at the probe point ahead of the shoulder,
airborne (`|velocity.y| > 1`), and the 20% roll succeeded. -/
def grabCond (ctx : AiCtx) (rand : AiRand) (b : Body) (d : HumanoidData) : Bool :=
  decide (d.hangingCounter = 0 ∧
    queryPoint ctx.walls (b.pos.1 + d.direction * 15, b.pos.2 - 10) ≠ [] ∧
    1 < |b.vel.2| ∧ rand.grabRoll = true)

/-- The stuck condition (`PhysicsCanvas.tsx` line 442), evaluated on the
body state at the time of the check. -/
def stuckCond (b : Body) : Bool :=
  decide (|b.vel.1| < 1 / 2 ∧ |b.vel.2| < 1 / 2)

/-- The forward-obstacle condition for the jump step
(`PhysicsCanvas.tsx` line 470). -/
def blockedFront (ctx : AiCtx) (b : Body) (d : HumanoidData) : Bool :=
  decide (queryPoint ctx.walls (b.pos.1 + d.direction * 50, b.pos.2) ≠ [])

/-- The jump step at the end of the walk logic (`PhysicsCanvas.tsx` lines
469–481): obstacle jump impulse when blocked ahead and grounded, otherwise
a 2% idle hop. -/
def aiJump (ctx : AiCtx) (rand : AiRand) (b : Body) (d : HumanoidData) : Body :=
  if blockedFront ctx b d && decide (|b.vel.2| < 1 / 10) then
    { b with force := (b.force.1 + d.direction * (1 / 25), b.force.2 - 3 / 25) }
  else if rand.jumpRoll && decide (|b.vel.2| < 1 / 10) then
    { b with force := (b.force.1, b.force.2 - 2 / 25) }
  else b

/-- The walk logic (`PhysicsCanvas.tsx` lines 437–481): pin angle, force
the horizontal walking velocity, then stuck detection and the jump step.
Note the stuck check reads `body.velocity` after the walk step has already
written `direction * 2` into it. -/
def aiWalk (ctx : AiCtx) (rand : AiRand) (b : Body) (d : HumanoidData) :
    Body × HumanoidData :=
  let b2 := { b with angle := 0, vel := (d.direction * 2, b.vel.2) }
  if stuckCond b2 then
    let d2 := { d with stuckCounter := d.stuckCounter + 1 }
    let b3 := if d2.stuckCounter = 15 then { b2 with vel := (b2.vel.1, -9) } else b2
    let d3 := if 90 < d2.stuckCounter
              then { d2 with direction := -d2.direction, stuckCounter := 0 }
              else d2
    let d4 := { d3 with legPhase := d3.legPhase + 1 / 5 }
    (aiJump ctx rand b3 d4, d4)
  else
    let d4 := { d with stuckCounter := 0, legPhase := d.legPhase + 1 / 5 }
    (aiJump ctx rand b2 d4, d4)

/-- The AI-tick steps after the ladder step: the hanging check and, when
not hanging, the walk / stuck-detection / jump logic
(`PhysicsCanvas.tsx` lines 400–481). -/
def aiRest (ctx : AiCtx) (rand : AiRand) (b : Body) (d : HumanoidData) :
    Body × HumanoidData :=
  let d1 := if grabCond ctx rand b d then { d with hangingCounter := rand.grabDur } else d
  let b1 := if grabCond ctx rand b d then { b with vel := ((0 : ℚ), (0 : ℚ)) } else b
  if 0 < d1.hangingCounter then
    -- Process Hanging: decrement, zero velocity, pin angle, cancel gravity
    let bh := { b1 with vel := ((0 : ℚ), (0 : ℚ)), angle := 0,
                        force := (b1.force.1, b1.force.2 - 1 * (1 / 1000) * b1.mass) }
    (bh, { d1 with hangingCounter := d1.hangingCounter - 1 })
  else
    aiWalk ctx rand b1 d1

/-- One iteration of the AI tick for one humanoid record: skipped entirely
when the body is `inBubble`; otherwise ladder detection (climb or
ladder-top), collision-mask adjustment, then `aiRest`. -/
def aiTickOne (ctx : AiCtx) (rand : AiRand) (b : Body) (d : HumanoidData) :
    Body × HumanoidData :=
  if b.inBubble then (b, d)
  else
    let ladders := ctx.entities.filter (fun e => e.label = "Ladder")
    match ladderScan b ladders with
    | some ld =>
        if b.pos.2 < (boundsMin ld).2 + 20 then
          -- On the ladder top: damp vertical velocity, fall through to walk
          let b' := { b with vel := (b.vel.1, b.vel.2 * (1 / 2)),
                             isOnLadderTop := true, mask := defaultMask }
          aiRest ctx rand b' { d with isClimbing := false }
        else
          -- Normal climbing: forced velocity, pinned angle, rest skipped
          let headBlocked : Prop :=
            queryPoint ctx.walls (b.pos.1, b.pos.2 - 30) ≠ []
          let vY : ℚ := if headBlocked then 2 else -(3 / 2)
          let bc := { b with vel := ((ld.pos.1 - b.pos.1) * (1 / 5), vY),
                             isOnLadderTop := false, mask := climbMask, angle := 0 }
          (bc, { d with isClimbing := true, legPhase := d.legPhase + 1 / 5 })
    | none =>
        let b' := { b with isOnLadderTop := false, mask := defaultMask }
        aiRest ctx rand b' { d with isClimbing := false }

/-! ## Canvas controller state and pointer-driven operations
(`PhysicsCanvas.tsx`, handlers and timers)

`CanvasState` collects the mutable references of the component:
`engine.world`'s body list, `wallsRef`, `entitiesRef`, `humanoidDataRef`,
`currentStrokeBodiesRef`, `isDrawingRef`, `lastPointRef`, plus a fresh-id
counter (modelling allocation of new body objects) and the emitted-sound
log.  The reference lists hold copies of bodies (see the header comment);
removal compares JavaScript references, modelled as `id` equality. -/

/-- One record of `humanoidDataRef` as stored by the canvas (the body
reference is modelled by its id; the per-record AI fields live in
`HumanoidData` for the tick model). -/
structure HumanoidRec where
  bodyId : ℕ
  direction : ℚ := 1
  legPhase : ℚ := 0
  stuckCounter : ℕ := 0
  hangingCounter : ℕ := 0
  deriving DecidableEq, Repr

/-- The cursor mode of the canvas. -/
inductive Mode
  | draw
  | grab
  | eraser
  deriving DecidableEq, Repr

/-- The mutable state of the canvas controller. -/
structure CanvasState where
  world : List Body := []
  walls : List Body := []
  entities : List Body := []
  humanoidData : List HumanoidRec := []
  stroke : List Body := []
  isDrawing : Bool := false
  lastPoint : Option Pt := none
  nextId : ℕ := 1
  sounds : List SE := []
  deriving DecidableEq, Repr

/-- Whether `eraseAt` removes a body it hits: everything except bodies
labelled `Ground` or `Ladder` (line 654). -/
def erasable (b : Body) : Bool :=
  !(b.label = "Ground" || b.label = "Ladder")

/-- The bodies a call `eraseAt (x, y)` removes:
`Matter.Query.point(allBodies, { x, y })` filtered by `erasable`. -/
def eraseHits (p : Pt) (s : CanvasState) : List Body :=
  (queryPoint s.world p).filter erasable

/-- `eraseAt(x, y)` (lines 649–666): remove every erasable body containing
the point from the world, deregister it from the entity, wall, and
humanoid-record lists, and play a bubble-pop for each removed bubble that
carries a contained entity. -/
def eraseAt (p : Pt) (s : CanvasState) : CanvasState :=
  let removed := eraseHits p s
  let removedIds := removed.map Body.id
  let pops := (removed.filter (fun b => b.isBubble && b.containedEntity ≠ none)).map
    (fun _ => SE.bubblePop)
  { s with world := s.world.filter (fun b => !(containsPoint b p && erasable b))
           entities := s.entities.filter (fun b => !removedIds.contains b.id)
           walls := s.walls.filter (fun b => !removedIds.contains b.id)
           humanoidData := s.humanoidData.filter (fun r => !removedIds.contains r.bodyId)
           sounds := s.sounds ++ pops }

/-- The number of interpolation steps of one pointer-move segment:
`Math.max(1, Math.floor(Math.hypot(x - lp.x, y - lp.y) / 2))`, computed
exactly (`⌊d / 2⌋ = ⌊⌊d⌋ / 2⌋` for the integer divisor 2). -/
def strokeSteps (lp p : Pt) : ℕ :=
  max 1 (ratSqrtFloor (dist2 lp p) / 2)

/-- The `i`-th interpolated sub-point of one pointer-move segment:
`lp + (p - lp) * (i / steps)`. -/
def strokePointAt (lp p : Pt) (steps i : ℕ) : Pt :=
  (lp.1 + (p.1 - lp.1) * ((i : ℚ) / (steps : ℚ)),
   lp.2 + (p.2 - lp.2) * ((i : ℚ) / (steps : ℚ)))

/-- One stroke segment body: `Matter.Bodies.circle(px, py, 3, { isStatic:
true })` from `handlePointerMove`.  The source adds no positional jitter
and gives the segment no label. -/
def mkStrokePart (i : ℕ) (c : Pt) : Body :=
  { id := i
    shape := BodyShape.circle 3
    pos := c
    isStatic := true }

/-- `handlePointerMove` (lines 599–623): inert unless drawing; in eraser
mode it erases at the pointer; in draw mode with a recorded last point it
subdivides the segment to the current pointer position, adds one small
static circle per sub-point to the world and to the stroke accumulator
(not to the wall list), then updates the last point. -/
def handlePointerMove (mode : Mode) (x y : ℚ) (s : CanvasState) : CanvasState :=
  if s.isDrawing = false then s
  else if mode = Mode.eraser then eraseAt (x, y) s
  else if mode = Mode.grab then s
  else
    match s.lastPoint with
    | none => s
    | some lp =>
        let steps := strokeSteps lp (x, y)
        let parts := (List.range steps).map
          (fun i => mkStrokePart (s.nextId + i) (strokePointAt lp (x, y) steps i))
        { s with world := s.world ++ parts
                 stroke := s.stroke ++ parts
                 nextId := s.nextId + steps
                 lastPoint := some (x, y) }

/-- Centroid of a list of part centers (`Matter.Body.create` places the
compound's `position` at the parts' centroid; unused by the modelled
rules). -/
def centroid (cs : List Pt) : Pt :=
  match cs with
  | [] => (0, 0)
  | _ =>
      ((cs.map Prod.fst).sum / (cs.length : ℚ),
       (cs.map Prod.snd).sum / (cs.length : ℚ))

/-- The compound drawn-line body created on pointer-up: one dynamic body
whose parts are circles of radius 3 at the recorded segment positions,
tagged `isFloating`, `isLine`, with `createdAt` the current time. -/
def mkCompound (i : ℕ) (centers : List Pt) (now : ℕ) : Body :=
  { id := i
    shape := BodyShape.compound 3 centers
    pos := centroid centers
    isStatic := false
    isFloating := true
    isLine := true
    createdAt := some now }

/-- `handlePointerUp` (lines 625–647): stop drawing; in draw mode with a
non-empty stroke accumulator, remove every segment body from the world,
add the one fused compound to the world and the wall list, and clear the
accumulator; always clear the last point. -/
def handlePointerUp (mode : Mode) (now : ℕ) (s : CanvasState) : CanvasState :=
  if s.isDrawing = false then s
  else
    let s1 := { s with isDrawing := false }
    if mode = Mode.draw ∧ s1.stroke ≠ [] then
      let strokeIds := s1.stroke.map Body.id
      let compound := mkCompound s1.nextId (s1.stroke.map Body.pos) now
      { s1 with world := (s1.world.filter (fun b => !strokeIds.contains b.id)) ++ [compound]
                walls := s1.walls ++ [compound]
                stroke := []
                nextId := s1.nextId + 1
                lastPoint := none }
    else { s1 with lastPoint := none }

/-- `handleClear` (lines 668–673): remove every wall-list body from the
world and empty the wall list.  (The external `onClear` callback is out of
scope.) -/
def handleClear (s : CanvasState) : CanvasState :=
  let wallIds := s.walls.map Body.id
  { s with world := s.world.filter (fun b => !wallIds.contains b.id)
           walls := [] }

/-- The out-of-bounds test of the periodic cleanup (line 511):
`body.position.y > height + 200 || body.position.x < -200 ||
body.position.x > width + 200`. -/
def outOfCanvas (width height : ℚ) (b : Body) : Bool :=
  decide (b.pos.2 > height + 200 ∨ b.pos.1 < -200 ∨ b.pos.1 > width + 200)

/-- The periodic cleanup tick (lines 509–523): filter the entity list,
removing each out-of-bounds entity from the world and dropping its
humanoid record, playing a bubble-pop first when the removed body is a
bubble with a contained entity. -/
def cleanupTick (width height : ℚ) (s : CanvasState) : CanvasState :=
  let removed := s.entities.filter (fun b => outOfCanvas width height b)
  let removedIds := removed.map Body.id
  let pops := (removed.filter (fun b => b.isBubble && b.containedEntity ≠ none)).map
    (fun _ => SE.bubblePop)
  { s with entities := s.entities.filter (fun b => !outOfCanvas width height b)
           world := s.world.filter (fun b => !removedIds.contains b.id)
           humanoidData := s.humanoidData.filter (fun r => !removedIds.contains r.bodyId)
           sounds := s.sounds ++ pops }

/-! ## Concrete scenario bodies -/

/-- The ground of a 800 × 600 canvas, as registered at mount time (and
pushed into `wallsRef` by line 137). -/
def c6Ground : Body := mkGround 800 600

/-- A ladder spawned by the ladder button (kept in `entitiesRef` only). -/
def c6Ladder : Body := createLadderEntity 1 400 200

/-- A drawn-line compound in the wall list. -/
def c6Stroke : Body := mkCompound 2 [(50, 50), (50, 52)] 0

/-- A canvas state after mounting, spawning a ladder and drawing one
stroke: the wall list holds the ground and the stroke. -/
def c6State : CanvasState :=
  { world := [c6Ground, c6Ladder, c6Stroke]
    walls := [c6Ground, c6Stroke]
    entities := [c6Ladder]
    nextId := 3 }

/-- **C6** (code bug).  The claim says clear-all removes exactly the drawn
strokes and that the ground remains in the world.  But the mount effect
pushes the ground into `wallsRef` (line 137) and `handleClear` removes
every wall-list body (line 670), so clearing also removes the ground from
the world; only bodies outside the wall list (here the ladder) survive. -/
theorem c6_clear_removes_ground :
    c6Ground ∈ c6State.world ∧ c6Ground ∈ c6State.walls ∧
    (handleClear c6State).world = [c6Ladder] ∧
    (handleClear c6State).walls = [] ∧
    c6Ground ∉ (handleClear c6State).world := by
  refine ⟨List.mem_cons_self _ _, List.mem_cons_self _ _, by decide, by decide, ?_⟩
  simp only [List.mem_singleton, handleClear]
  decide

/-! ## C7: eraser semantics -/

/-- Survivors of an `eraseAt` are exactly the world bodies that are not
erasable point-hits. -/
theorem eraseAt_world (p : Pt) (s : CanvasState) :
    (eraseAt p s).world =
      s.world.filter (fun b => !(containsPoint b p && erasable b)) := rfl

/-- Two canvas states with equal fields are equal. -/
theorem canvasExt {a b : CanvasState} (hw : a.world = b.world)
    (hwa : a.walls = b.walls) (he : a.entities = b.entities)
    (hh : a.humanoidData = b.humanoidData) (hst : a.stroke = b.stroke)
    (hd : a.isDrawing = b.isDrawing) (hlp : a.lastPoint = b.lastPoint)
    (hn : a.nextId = b.nextId) (hs : a.sounds = b.sounds) : a = b := by
  cases a
  cases b
  simp_all

/-- An `eraseAt` whose point-query returns no erasable body leaves the
state unchanged. -/
theorem eraseAt_eq_self (p : Pt) (s : CanvasState)
    (h : eraseHits p s = []) : eraseAt p s = s := by
  have hw : ∀ b ∈ s.world, (!(containsPoint b p && erasable b)) = true := by
    intro b hb
    by_contra hne
    rw [Bool.not_eq_true, Bool.not_eq_false', Bool.and_eq_true] at hne
    have hhit : b ∈ eraseHits p s := by
      rw [eraseHits, queryPoint, List.mem_filter, List.mem_filter]
      exact ⟨⟨hb, hne.1⟩, hne.2⟩
    rw [h] at hhit
    exact absurd hhit (List.not_mem_nil b)
  have hids : ∀ (n : ℕ), (!List.contains ((eraseHits p s).map Body.id) n) = true := by
    intro n
    rw [h]
    rfl
  refine canvasExt ?_ ?_ ?_ ?_ rfl rfl rfl rfl ?_
  · exact (eraseAt_world p s).trans (List.filter_eq_self.mpr hw)
  · exact List.filter_eq_self.mpr (fun b _ => hids b.id)
  · exact List.filter_eq_self.mpr (fun b _ => hids b.id)
  · exact List.filter_eq_self.mpr (fun r _ => hids r.bodyId)
  · show s.sounds ++ _ = s.sounds
    rw [h, List.filter_nil, List.map_nil, List.append_nil]

/-- After `eraseAt p`, no erasable body of the world contains `p`. -/
theorem eraseAt_no_hit (p : Pt) (s : CanvasState) :
    eraseHits p (eraseAt p s) = [] := by
  apply List.eq_nil_iff_forall_not_mem.mpr
  intro b hb
  rw [eraseHits, queryPoint, List.mem_filter] at hb
  obtain ⟨hq, he⟩ := hb
  rw [List.mem_filter] at hq
  obtain ⟨hw, hc⟩ := hq
  rw [eraseAt_world, List.mem_filter] at hw
  obtain ⟨-, hkeep⟩ := hw
  rw [hc, he] at hkeep
  simp at hkeep

/-- **C7 (amended).**  `eraseAt (x, y)` removes exactly the bodies whose
shape contains the point (the code queries `Matter.Query.point`, with no
20 px radius), except bodies labelled `Ground` or `Ladder`, which always
survive; every removed body is deregistered from the entity list, the
wall list, and the humanoid-record list; and a second `eraseAt` at the
same point is a no-op. -/
theorem c7_erase_at_spec (p : Pt) (s : CanvasState) :
    (∀ b ∈ (eraseAt p s).world, containsPoint b p = true →
      b.label = "Ground" ∨ b.label = "Ladder") ∧
    (∀ b ∈ s.world, b.label = "Ground" ∨ b.label = "Ladder" →
      b ∈ (eraseAt p s).world) ∧
    (∀ b ∈ s.world, containsPoint b p = false → b ∈ (eraseAt p s).world) ∧
    (∀ b ∈ (eraseAt p s).entities, b.id ∉ (eraseHits p s).map Body.id) ∧
    (∀ b ∈ (eraseAt p s).walls, b.id ∉ (eraseHits p s).map Body.id) ∧
    (∀ r ∈ (eraseAt p s).humanoidData,
      r.bodyId ∉ (eraseHits p s).map Body.id) ∧
    eraseAt p (eraseAt p s) = eraseAt p s := by
  refine ⟨?_, ?_, ?_, ?_, ?_, ?_,
    eraseAt_eq_self p (eraseAt p s) (eraseAt_no_hit p s)⟩
  · intro b hb hc
    rw [eraseAt_world, List.mem_filter] at hb
    obtain ⟨-, hkeep⟩ := hb
    rw [hc] at hkeep
    simp only [Bool.not_eq_true', Bool.true_and] at hkeep
    rw [erasable] at hkeep
    simp only [Bool.not_eq_false', Bool.or_eq_true, decide_eq_true_eq] at hkeep
    exact hkeep
  · intro b hb hl
    rw [eraseAt_world, List.mem_filter]
    refine ⟨hb, ?_⟩
    have he : erasable b = false := by
      rw [erasable]
      simp only [Bool.not_eq_false', Bool.or_eq_true, decide_eq_true_eq]
      exact hl
    rw [he]
    simp
  · intro b hb hc
    rw [eraseAt_world, List.mem_filter]
    refine ⟨hb, ?_⟩
    rw [hc]
    simp
  · intro b hb
    have : (!((eraseHits p s).map Body.id).contains b.id) = true :=
      (List.mem_filter.mp hb).2
    simpa using this
  · intro b hb
    have : (!((eraseHits p s).map Body.id).contains b.id) = true :=
      (List.mem_filter.mp hb).2
    simpa using this
  · intro r hr
    have : (!((eraseHits p s).map Body.id).contains r.bodyId) = true :=
      (List.mem_filter.mp hr).2
    simpa using this

/-- A ball of radius 10 centered at the origin. -/
def c7Ball : Body := createEntity 1 0 0

/-- A canvas holding just that ball as a tracked entity. -/
def c7State : CanvasState :=
  { world := [c7Ball], entities := [c7Ball], nextId := 2 }

/-- **C7 counterexample.**  The claim says every wall-list or entity body
within an erase radius of about 20 px of the point is removed.  The code
removes only bodies whose shape contains the point
(`Matter.Query.point`, line 652): erasing at `(15, 0)` — whose distance to
the ball's center is 15 px, inside any 20 px radius, and 5 px from the
ball's boundary — removes nothing, because the point lies outside the
radius-10 shape. -/
theorem c7_erase_radius_counterexample :
    c7Ball ∈ c7State.entities ∧
    dist2 (15, 0) c7Ball.pos < 20 * 20 ∧
    eraseAt (15, 0) c7State = c7State := by
  refine ⟨List.mem_cons_self _ _, ?_, ?_⟩
  · norm_num [dist2, c7Ball, createEntity]
  · apply eraseAt_eq_self
    have hc : containsPoint c7Ball (15, 0) = false := by
      rw [containsPoint]
      norm_num [c7Ball, createEntity, dist2]
    rw [eraseHits, queryPoint]
    show List.filter _ (List.filter _ [c7Ball]) = []
    rw [List.filter_cons, hc]
    rfl

/-! ## C5: pointer-move stroke subdivision -/

/-- **C5 (amended).**  On pointer-move while drawing in draw mode, the
segment from the last recorded point to the pointer is subdivided into
`max 1 ⌊distance / 2⌋` sub-points, and for each sub-point one small static
circle of radius 3 is created at exactly the interpolated position (no
jitter) and added to the world and to the stroke accumulator — but not to
the wall list, which is unchanged; the last point is then updated. -/
theorem c5_pointer_move_spec (x y : ℚ) (s : CanvasState) (lp : Pt)
    (hD : s.isDrawing = true) (hlp : s.lastPoint = some lp) :
    (handlePointerMove Mode.draw x y s).walls = s.walls ∧
    (handlePointerMove Mode.draw x y s).world =
      s.world ++ (List.range (strokeSteps lp (x, y))).map
        (fun i => mkStrokePart (s.nextId + i)
          (strokePointAt lp (x, y) (strokeSteps lp (x, y)) i)) ∧
    (handlePointerMove Mode.draw x y s).stroke =
      s.stroke ++ (List.range (strokeSteps lp (x, y))).map
        (fun i => mkStrokePart (s.nextId + i)
          (strokePointAt lp (x, y) (strokeSteps lp (x, y)) i)) ∧
    (handlePointerMove Mode.draw x y s).lastPoint = some (x, y) ∧
    strokeSteps lp (x, y) = max 1 (ratSqrtFloor (dist2 lp (x, y)) / 2) ∧
    (∀ b ∈ (handlePointerMove Mode.draw x y s).world, b ∉ s.world →
      b.isStatic = true ∧ b.shape = BodyShape.circle 3 ∧
      ∃ i, i < strokeSteps lp (x, y) ∧
        b.pos = strokePointAt lp (x, y) (strokeSteps lp (x, y)) i) := by
  have hmove : handlePointerMove Mode.draw x y s =
      { s with world := s.world ++ (List.range (strokeSteps lp (x, y))).map
                 (fun i => mkStrokePart (s.nextId + i)
                   (strokePointAt lp (x, y) (strokeSteps lp (x, y)) i))
               stroke := s.stroke ++ (List.range (strokeSteps lp (x, y))).map
                 (fun i => mkStrokePart (s.nextId + i)
                   (strokePointAt lp (x, y) (strokeSteps lp (x, y)) i))
               nextId := s.nextId + strokeSteps lp (x, y)
               lastPoint := some (x, y) } := by
    rw [handlePointerMove, hD, hlp]
    rfl
  rw [hmove]
  refine ⟨rfl, rfl, rfl, rfl, rfl, ?_⟩
  intro b hb hbnot
  rcases List.mem_append.mp hb with hold | hnew
  · exact absurd hold hbnot
  · obtain ⟨i, hi, rfl⟩ := List.mem_map.mp hnew
    exact ⟨rfl, rfl, i, List.mem_range.mp hi, rfl⟩

/-- A drawing-in-progress state: pointer down at `(0, 0)` in draw mode,
nothing drawn yet. -/
def c5State : CanvasState :=
  { isDrawing := true, lastPoint := some (0, 0), nextId := 10 }

/-- The number of sub-points for the concrete drag from `(0,0)` to
`(0,4)`: the distance is 4, so `max 1 ⌊4 / 2⌋ = 2`. -/
theorem c5_steps : strokeSteps (0, 0) (0, 4) = 2 := by
  have hd : dist2 (0, 0) ((0 : ℚ), (4 : ℚ)) = 16 := by
    norm_num [dist2]
  rw [strokeSteps, hd]
  have h16 : ratSqrtFloor 16 = 4 := by
    rw [ratSqrtFloor]
    norm_num
    exact Nat.sqrt_eq 4
  rw [h16]
  rfl

/-- **C5 counterexample.**  The claim says each created segment circle is
added to the world, to the wall list, and to the stroke accumulator, with
slight random positional jitter.  Dragging from `(0,0)` to `(0,4)` creates
the two segment bodies in the world and the stroke accumulator at exactly
the interpolated positions `(0,0)` and `(0,2)` (no jitter in the source,
lines 611–619), and the wall list stays empty: the segments are never
pushed into `wallsRef`. -/
theorem c5_wall_list_counterexample :
    (handlePointerMove Mode.draw 0 4 c5State).walls = [] ∧
    (handlePointerMove Mode.draw 0 4 c5State).world.length = 2 ∧
    (handlePointerMove Mode.draw 0 4 c5State).stroke.map Body.pos =
      [(0, 0), (0, 2)] := by
  obtain ⟨hwa, hw, hst, -, -, -⟩ :=
    c5_pointer_move_spec 0 4 c5State (0, 0) rfl rfl
  rw [c5_steps] at hw hst
  refine ⟨hwa, ?_, ?_⟩
  · rw [hw]
    rfl
  · rw [hst]
    show List.map Body.pos [mkStrokePart 10 _, mkStrokePart 11 _] = _
    simp only [List.map_cons, List.map_nil, mkStrokePart]
    norm_num [strokePointAt]

/-- **C5 amended-claim witness**: the concrete drag from the
counterexample, seen through the amended theorem — the last point is
updated to the pointer position. -/
theorem c5_pointer_move_spec_witness :
    (handlePointerMove Mode.draw 0 4 c5State).lastPoint = some (0, 4) :=
  (c5_pointer_move_spec 0 4 c5State (0, 0) rfl rfl).2.2.2.1

/-! ## C4: pointer-up stroke fusion -/

/-- **C4.**  On pointer-up in draw mode with a non-empty stroke
accumulator, every individual segment body of the stroke is removed from
the world, and exactly one compound dynamic body — circle parts at the
same recorded positions, tagged floating and drawn-line with a creation
timestamp — is appended to the world and to the wall list, and the
accumulator is emptied; with an empty accumulator nothing is added.
Freshness of `nextId` models that the newly allocated compound is a new
object distinct from every existing body. -/
theorem c4_pointer_up_spec (now : ℕ) (s : CanvasState)
    (hD : s.isDrawing = true)
    (hFreshS : ∀ b ∈ s.stroke, b.id < s.nextId) :
    (s.stroke ≠ [] →
      (∀ b ∈ (handlePointerUp Mode.draw now s).world,
        b.id ∉ s.stroke.map Body.id) ∧
      (handlePointerUp Mode.draw now s).world =
        s.world.filter (fun b => !(s.stroke.map Body.id).contains b.id) ++
          [mkCompound s.nextId (s.stroke.map Body.pos) now] ∧
      (handlePointerUp Mode.draw now s).walls =
        s.walls ++ [mkCompound s.nextId (s.stroke.map Body.pos) now] ∧
      (mkCompound s.nextId (s.stroke.map Body.pos) now).isStatic = false ∧
      (mkCompound s.nextId (s.stroke.map Body.pos) now).isFloating = true ∧
      (mkCompound s.nextId (s.stroke.map Body.pos) now).isLine = true ∧
      (mkCompound s.nextId (s.stroke.map Body.pos) now).createdAt = some now ∧
      (mkCompound s.nextId (s.stroke.map Body.pos) now).shape =
        BodyShape.compound 3 (s.stroke.map Body.pos) ∧
      (handlePointerUp Mode.draw now s).stroke = []) ∧
    (s.stroke = [] →
      (handlePointerUp Mode.draw now s).world = s.world ∧
      (handlePointerUp Mode.draw now s).walls = s.walls ∧
      (handlePointerUp Mode.draw now s).stroke = []) := by
  constructor
  · intro hne
    have hmove : handlePointerUp Mode.draw now s =
        { s with isDrawing := false
                 world := s.world.filter
                   (fun b => !(s.stroke.map Body.id).contains b.id) ++
                   [mkCompound s.nextId (s.stroke.map Body.pos) now]
                 walls := s.walls ++
                   [mkCompound s.nextId (s.stroke.map Body.pos) now]
                 stroke := []
                 nextId := s.nextId + 1
                 lastPoint := none } := by
      rw [handlePointerUp, hD]
      rw [if_neg (by decide)]
      rw [if_pos ⟨rfl, hne⟩]
    rw [hmove]
    refine ⟨?_, rfl, rfl, rfl, rfl, rfl, rfl, rfl, rfl⟩
    intro b hb hbid
    rcases List.mem_append.mp hb with hf | hc
    · have hkeep := (List.mem_filter.mp hf).2
      rw [Bool.not_eq_true'] at hkeep
      have : (s.stroke.map Body.id).contains b.id = true :=
        List.elem_eq_true_of_mem hbid
      rw [this] at hkeep
      exact absurd hkeep (by decide)
    · rw [List.mem_singleton] at hc
      obtain ⟨b', hb', hid⟩ := List.mem_map.mp hbid
      have hlt := hFreshS b' hb'
      rw [hid, hc] at hlt
      exact absurd hlt (by simp [mkCompound])
  · intro hemp
    have hmove : handlePointerUp Mode.draw now s =
        { s with isDrawing := false, lastPoint := none } := by
      rw [handlePointerUp, hD]
      rw [if_neg (by decide)]
      rw [if_neg (fun hcon => hcon.2 hemp)]
    rw [hmove]
    exact ⟨rfl, rfl, hemp⟩

/-- A draw gesture about to be released: two accumulated segment bodies
from a stroke drawn from `(50, 50)` to `(50, 52)`. -/
def c4State : CanvasState :=
  { world := [mkStrokePart 0 (50, 50), mkStrokePart 1 (50, 52)]
    stroke := [mkStrokePart 0 (50, 50), mkStrokePart 1 (50, 52)]
    isDrawing := true
    lastPoint := some (50, 52)
    nextId := 2 }

/-- **C4 witness**: releasing the concrete stroke empties the accumulator
and appends exactly the one compound to the (previously empty) wall
list. -/
theorem c4_pointer_up_spec_witness :
    (handlePointerUp Mode.draw 7 c4State).stroke = [] ∧
    (handlePointerUp Mode.draw 7 c4State).walls =
      [] ++ [mkCompound 2 (c4State.stroke.map Body.pos) 7] :=
  ⟨((c4_pointer_up_spec 7 c4State rfl (by decide)).1
      (by decide)).2.2.2.2.2.2.2.2,
   ((c4_pointer_up_spec 7 c4State rfl (by decide)).1 (by decide)).2.2.1⟩

/-- **C7 amended-claim witness**: the ball not containing the erase point
survives the erase pass. -/
theorem c7_erase_at_spec_witness :
    c7Ball ∈ (eraseAt (15, 0) c7State).world :=
  (c7_erase_at_spec (15, 0) c7State).2.2.1 c7Ball (List.mem_cons_self _ _)
    (by rw [containsPoint]; norm_num [c7Ball, createEntity, dist2])

/-! ## C9: periodic out-of-bounds cleanup -/

/-- **C9 (amended).**  The periodic cleanup pass removes every tracked
entity that is out of the canvas on one of the three checked sides — more
than 200 px below the bottom, left of the left edge, or right of the
right edge (`outOfCanvas`, from line 511; the top side is never checked)
— from the world and the entity list, drops its humanoid record, and
plays the bubble-pop signal exactly for the removed bubbles that carry a
contained entity (appending one pop per such bubble, in entity order,
before anything else is emitted); tracked entities not beyond one of
those three margins — and the world bodies not claimed by a removed
entity id — are left untouched. -/
theorem c9_cleanup_spec (width height : ℚ) (s : CanvasState) :
    (∀ e ∈ s.entities, outOfCanvas width height e = true →
      e ∉ (cleanupTick width height s).entities ∧
      (∀ b ∈ (cleanupTick width height s).world, b.id ≠ e.id) ∧
      (∀ r ∈ (cleanupTick width height s).humanoidData, r.bodyId ≠ e.id)) ∧
    (∀ e ∈ s.entities, outOfCanvas width height e = false →
      e ∈ (cleanupTick width height s).entities) ∧
    (∀ b ∈ s.world,
      (∀ e ∈ s.entities, outOfCanvas width height e = true → e.id ≠ b.id) →
      b ∈ (cleanupTick width height s).world) ∧
    (∀ r ∈ s.humanoidData,
      (∀ e ∈ s.entities, outOfCanvas width height e = true →
        e.id ≠ r.bodyId) →
      r ∈ (cleanupTick width height s).humanoidData) ∧
    (cleanupTick width height s).sounds = s.sounds ++
      ((s.entities.filter (fun b => outOfCanvas width height b)).filter
        (fun b => b.isBubble && b.containedEntity ≠ none)).map
        (fun _ => SE.bubblePop) := by
  have hmem : ∀ (n : ℕ),
      (List.contains ((s.entities.filter
        (fun b => outOfCanvas width height b)).map Body.id) n) = true ↔
      (∃ e ∈ s.entities, outOfCanvas width height e = true ∧ e.id = n) := by
    intro n
    constructor
    · intro hc
      obtain ⟨e, he, hid⟩ := List.mem_map.mp (List.mem_of_elem_eq_true hc)
      obtain ⟨he', hout⟩ := List.mem_filter.mp he
      exact ⟨e, he', hout, hid⟩
    · intro ⟨e, he, hout, hid⟩
      exact List.elem_eq_true_of_mem
        (List.mem_map.mpr ⟨e, List.mem_filter.mpr ⟨he, hout⟩, hid⟩)
  refine ⟨?_, ?_, ?_, ?_, rfl⟩
  · intro e he hout
    refine ⟨?_, ?_, ?_⟩
    · intro hmem'
      have := (List.mem_filter.mp hmem').2
      rw [hout] at this
      exact absurd this (by decide)
    · intro b hb hid
      have hkeep := (List.mem_filter.mp hb).2
      rw [Bool.not_eq_true'] at hkeep
      rw [(hmem b.id).mpr ⟨e, he, hout, hid.symm⟩] at hkeep
      exact absurd hkeep (by decide)
    · intro r hr hid
      have hkeep := (List.mem_filter.mp hr).2
      rw [Bool.not_eq_true'] at hkeep
      rw [(hmem r.bodyId).mpr ⟨e, he, hout, hid.symm⟩] at hkeep
      exact absurd hkeep (by decide)
  · intro e he hout
    exact List.mem_filter.mpr ⟨he, by rw [hout]; rfl⟩
  · intro b hb hnone
    refine List.mem_filter.mpr ⟨hb, ?_⟩
    rw [Bool.not_eq_true']
    by_contra hc
    rw [Bool.not_eq_false] at hc
    obtain ⟨e, he, hout, hid⟩ := (hmem b.id).mp hc
    exact absurd hid (hnone e he hout)
  · intro r hr hnone
    refine List.mem_filter.mpr ⟨hr, ?_⟩
    rw [Bool.not_eq_true']
    by_contra hc
    rw [Bool.not_eq_false] at hc
    obtain ⟨e, he, hout, hid⟩ := (hmem r.bodyId).mp hc
    exact absurd hid (hnone e he hout)

/-- A bubble far off the right edge of an 800 × 600 canvas, carrying a
captured humanoid (id 5). -/
def c9Bubble : Body :=
  { createBubbleEntity 3 1100 300 with containedEntity := some 5 }

/-- A ball inside the canvas. -/
def c9Ball : Body := createEntity 4 400 300

/-- Entities tracked at cleanup time: the off-screen bubble and the
on-screen ball. -/
def c9State : CanvasState :=
  { world := [c9Bubble, c9Ball], entities := [c9Bubble, c9Ball] }

/-- **C9 witness**: on the concrete state, the off-screen bubble is
dropped from the entity list and the on-screen ball is kept. -/
theorem c9_cleanup_spec_witness :
    c9Bubble ∉ (cleanupTick 800 600 c9State).entities ∧
    c9Ball ∈ (cleanupTick 800 600 c9State).entities :=
  ⟨((c9_cleanup_spec 800 600 c9State).1 c9Bubble (List.mem_cons_self _ _)
      (by simp only [outOfCanvas, c9Bubble, createBubbleEntity,
            decide_eq_true_eq]; norm_num)).1,
   (c9_cleanup_spec 800 600 c9State).2.1 c9Ball
      (List.mem_cons_of_mem _ (List.mem_cons_self _ _))
      (by simp only [outOfCanvas, c9Ball, createEntity,
            decide_eq_false_iff_not]; norm_num)⟩

/-- A cleanup pass in which no tracked entity is beyond one of the three
checked margins leaves the state unchanged. -/
theorem cleanupTick_eq_self (w ht : ℚ) (s : CanvasState)
    (hnone : s.entities.filter (fun b => outOfCanvas w ht b) = []) :
    cleanupTick w ht s = s := by
  have hall : ∀ b ∈ s.entities, (!outOfCanvas w ht b) = true := by
    intro b hb
    rw [Bool.not_eq_true']
    by_contra hc
    rw [Bool.not_eq_false] at hc
    have hmem : b ∈ s.entities.filter (fun b => outOfCanvas w ht b) :=
      List.mem_filter.mpr ⟨hb, hc⟩
    rw [hnone] at hmem
    exact absurd hmem (List.not_mem_nil b)
  have hids : ∀ (n : ℕ),
      (!List.contains ((s.entities.filter
        (fun b => outOfCanvas w ht b)).map Body.id) n) = true := by
    intro n
    rw [hnone]
    rfl
  refine canvasExt ?_ rfl ?_ ?_ rfl rfl rfl rfl ?_
  · exact List.filter_eq_self.mpr (fun b _ => hids b.id)
  · exact List.filter_eq_self.mpr hall
  · exact List.filter_eq_self.mpr (fun r _ => hids r.bodyId)
  · show s.sounds ++ _ = s.sounds
    rw [hnone, List.filter_nil, List.map_nil, List.append_nil]

/-- A bubble 300 px above the top edge of an 800 × 600 canvas — outside
the canvas bounds by well over the 200 px margin. -/
def c9TopBubble : Body := createBubbleEntity 10 400 (-300)

/-- The state tracking only that bubble. -/
def c9TopState : CanvasState :=
  { world := [c9TopBubble], entities := [c9TopBubble] }

/-- **C9 counterexample.**  The claim says the cleanup pass removes every
tracked entity whose position has left the canvas bounds by a margin.
The code's predicate (line 511) checks only the bottom, left, and right
sides — `y > height+200 || x < -200 || x > width+200` — so an entity
300 px above the top edge, which has left the bounds by any margin, is
kept: the cleanup pass returns the state unchanged.  (The missing top
check is consistent with the rest of the code: entities are spawned above
the canvas, at `y = -30` and down to `y ≈ -250` for roulette wins, and
must not be swept before they fall in.) -/
theorem c9_top_margin_counterexample :
    c9TopBubble ∈ c9TopState.entities ∧
    c9TopBubble.pos.2 < -200 ∧
    cleanupTick 800 600 c9TopState = c9TopState := by
  have hout : outOfCanvas 800 600 c9TopBubble = false := by
    simp only [outOfCanvas, c9TopBubble, createBubbleEntity,
      decide_eq_false_iff_not]
    push_neg
    norm_num
  refine ⟨List.mem_cons_self _ _, ?_, ?_⟩
  · norm_num [c9TopBubble, createBubbleEntity]
  · apply cleanupTick_eq_self
    show List.filter _ [c9TopBubble] = []
    rw [List.filter_cons, hout]
    rfl

/-! ## C3: stuck detection (dead branch) -/

/-- With no ladder overlapping (here: no ladder at all), the AI tick of an
un-bubbled humanoid proceeds directly to the hang/walk stage with the
default mask restored. -/
theorem aiTickOne_no_ladder (ctx : AiCtx) (rand : AiRand) (b : Body)
    (d : HumanoidData) (hB : b.inBubble = false)
    (hlad : ctx.entities.filter (fun e => e.label = "Ladder") = []) :
    aiTickOne ctx rand b d =
      aiRest ctx rand { b with isOnLadderTop := false, mask := defaultMask }
        { d with isClimbing := false } := by
  rw [aiTickOne, hB]
  rw [if_neg (by decide)]
  rw [hlad]
  rfl

/-- When the humanoid is not hanging and not airborne, the hang stage does
nothing and the walk stage runs. -/
theorem aiRest_walk (ctx : AiCtx) (rand : AiRand) (b : Body)
    (d : HumanoidData) (hH : d.hangingCounter = 0)
    (hV : |b.vel.2| ≤ 1) :
    aiRest ctx rand b d = aiWalk ctx rand b d := by
  have hg : grabCond ctx rand b d = false := by
    rw [grabCond]
    apply decide_eq_false
    rintro ⟨-, -, hv, -⟩
    exact absurd hv (not_lt.mpr hV)
  rw [aiRest, hg]
  simp only [if_neg (by decide : ¬(false = true))]
  rw [if_neg]
  rw [hH]
  exact lt_irrefl 0

/-- A walking humanoid whose direction is the usual `±1` always leaves the
walk stage with `stuckCounter = 0` and its direction unchanged: the stuck
check reads the horizontal velocity just forced to `direction * 2`. -/
theorem aiWalk_not_stuck (ctx : AiCtx) (rand : AiRand) (b : Body)
    (d : HumanoidData) (hdir : d.direction = 1 ∨ d.direction = -1) :
    (aiWalk ctx rand b d).2.stuckCounter = 0 ∧
    (aiWalk ctx rand b d).2.direction = d.direction := by
  have hstuck :
      stuckCond { b with angle := 0, vel := (d.direction * 2, b.vel.2) } =
        false := by
    rw [stuckCond]
    apply decide_eq_false
    rintro ⟨hx, -⟩
    have hx' : |d.direction * 2| < 1 / 2 := hx
    rcases hdir with h1 | h1 <;>
      · rw [h1] at hx'
        norm_num at hx'
  rw [aiWalk, hstuck]
  exact ⟨rfl, rfl⟩

/-- **C3** (code bug).  The claim (and the spec) say that when both
velocity components are below the stuck thresholds the counter increments,
an escape jump fires when it reaches 15, and past the turnaround threshold
the direction flips.  But the walk step (line 439) writes
`velocity.x = direction * 2` before the stuck check (line 442) reads it,
so with `direction = ±1` the check always sees `|velocity.x| = 2 ≥ 0.5`:
on every walking tick the counter is reset to 0 and the direction is kept
— the stuck increment, the escape jump, and the turnaround are
unreachable, no matter how slowly the humanoid entered the tick. -/
theorem c3_stuck_branch_dead (ctx : AiCtx) (rand : AiRand) (b : Body)
    (d : HumanoidData) (hB : b.inBubble = false)
    (hlad : ctx.entities.filter (fun e => e.label = "Ladder") = [])
    (hH : d.hangingCounter = 0) (hV : |b.vel.2| ≤ 1)
    (hdir : d.direction = 1 ∨ d.direction = -1) :
    (aiTickOne ctx rand b d).2.stuckCounter = 0 ∧
    (aiTickOne ctx rand b d).2.direction = d.direction := by
  rw [aiTickOne_no_ladder ctx rand b d hB hlad]
  rw [aiRest_walk ctx rand
    { b with isOnLadderTop := false, mask := defaultMask }
    { d with isClimbing := false } hH hV]
  exact aiWalk_not_stuck ctx rand
    { b with isOnLadderTop := false, mask := defaultMask }
    { d with isClimbing := false } hdir

/-- A humanoid wedged against a wall: at rest (velocity `(0, 0)`), with 14
near-zero-velocity ticks already counted. -/
def c3Body : Body := createHumanoidEntity 7 100 450

/-- The corresponding AI record one tick before the claimed escape-jump
threshold. -/
def c3Data : HumanoidData :=
  { direction := 1, legPhase := 0, stuckCounter := 14, hangingCounter := 0 }

/-- An environment with one big wall body (so the forward probe sees an
obstacle) and no ladders. -/
def c3Ctx : AiCtx :=
  { walls := [{ id := 0, label := "Ground", shape := BodyShape.rect 10000 10000,
                pos := (0, 0), isStatic := true }]
    entities := [] }

/-- **C3 witness / failing input**: on the 15th consecutive tick with the
humanoid at rest, the claim expects `stuckCounter = 15` and an escape
jump; the code resets the counter to 0 and keeps the direction. -/
theorem c3_stuck_branch_dead_witness :
    (aiTickOne c3Ctx ⟨true, 33, true⟩ c3Body c3Data).2.stuckCounter = 0 ∧
    (aiTickOne c3Ctx ⟨true, 33, true⟩ c3Body c3Data).2.direction = 1 :=
  c3_stuck_branch_dead c3Ctx ⟨true, 33, true⟩ c3Body c3Data rfl rfl rfl
    (by norm_num [c3Body, createHumanoidEntity]) (Or.inl rfl)

/-! ## C2: ladder climbing -/

/-- The ladder loop picks the first ladder whose bounds overlap the
humanoid's. -/
theorem ladderScan_append (b : Body) (l₁ l₂ : List Body) (ld : Body)
    (hno : ∀ la ∈ l₁, boundsOverlap b la = false)
    (hov : boundsOverlap b ld = true) :
    ladderScan b (l₁ ++ ld :: l₂) = some ld := by
  induction l₁ with
  | nil =>
      rw [List.nil_append, ladderScan, hov]
      rfl
  | cons a as ih =>
      rw [List.cons_append, ladderScan, hno a (List.mem_cons_self a as)]
      exact ih (fun la hla => hno la (List.mem_cons_of_mem a hla))

/-- The velocity forced while climbing (`PhysicsCanvas.tsx` lines
372–377): horizontal attraction `0.2 · (ladderCenterX - bodyX)`, vertical
`+2` when a wall body sits at the probe point 30 px above the head
(descend) and `-1.5` otherwise (ascend). -/
def climbVelocity (ctx : AiCtx) (b ld : Body) : Pt :=
  ((ld.pos.1 - b.pos.1) * (1 / 5),
   if queryPoint ctx.walls (b.pos.1, b.pos.2 - 30) ≠ [] then 2 else -(3 / 2))

/-- **C2.**  On an AI tick, an un-bubbled humanoid whose bounding box
overlaps a ladder's (the first such ladder in the entity list) and whose
vertical position is at or below the ladder-top margin
(`bounds.min.y + 20`) comes out climbing: `isClimbing = true`, the
velocity is forced to `climbVelocity` (horizontal component proportional
to the offset toward the ladder's center with gain 0.2; vertical −1.5
ascend without a head-probe hit, +2 descend with one), the angle is
pinned to 0, the leg phase advances, the mask drops the platform bit, and
every remaining AI step of the tick is skipped — direction, stuck
counter, hanging counter, force, and position are untouched. -/
theorem c2_ladder_climb (ctx : AiCtx) (rand : AiRand) (b : Body)
    (d : HumanoidData) (l₁ l₂ : List Body) (ld : Body)
    (hB : b.inBubble = false)
    (hfilter : ctx.entities.filter (fun e => e.label = "Ladder") =
      l₁ ++ ld :: l₂)
    (hno : ∀ la ∈ l₁, boundsOverlap b la = false)
    (hov : boundsOverlap b ld = true)
    (htop : ¬b.pos.2 < (boundsMin ld).2 + 20) :
    aiTickOne ctx rand b d =
      ({ b with vel := climbVelocity ctx b ld, isOnLadderTop := false, mask := climbMask, angle := 0 },
       { d with isClimbing := true, legPhase := d.legPhase + 1 / 5 }) := by
  rw [aiTickOne, hB]
  rw [if_neg (by decide)]
  simp only [hfilter, ladderScan_append b l₁ l₂ ld hno hov]
  rw [if_neg htop]
  rfl

/-- A ladder centered at `(100, 300)` (bounds `y ∈ [210, 390]`). -/
def c2Ladder : Body := createLadderEntity 2 100 300

/-- A humanoid at `(110, 300)`: its box overlaps the ladder's, 90 px below
the ladder top. -/
def c2Body : Body := createHumanoidEntity 9 110 300

/-- AI context: no walls, the ladder as the only entity. -/
def c2Ctx : AiCtx := { walls := [], entities := [c2Ladder] }

/-- A fresh AI record. -/
def c2Data : HumanoidData :=
  { direction := 1, legPhase := 0, stuckCounter := 0, hangingCounter := 0 }

/-- **C2 witness**: the concrete humanoid on the ladder comes out of its
tick climbing, with velocity `(0.2 · (100 − 110), −1.5)` = `(−2, −1.5)`
(no wall above its head, so it ascends). -/
theorem c2_ladder_climb_witness :
    (aiTickOne c2Ctx ⟨false, 0, false⟩ c2Body c2Data).2.isClimbing = true ∧
    (aiTickOne c2Ctx ⟨false, 0, false⟩ c2Body c2Data).1.vel =
      (-2, -(3 / 2)) := by
  have hov : boundsOverlap c2Body c2Ladder = true := by
    simp only [boundsOverlap, boundsMin, boundsMax, c2Body, c2Ladder,
      createHumanoidEntity, createLadderEntity, decide_eq_true_eq]
    norm_num
  have htop : ¬c2Body.pos.2 < (boundsMin c2Ladder).2 + 20 := by
    simp only [boundsMin, c2Body, c2Ladder, createHumanoidEntity,
      createLadderEntity]
    norm_num
  have h := c2_ladder_climb c2Ctx ⟨false, 0, false⟩ c2Body c2Data [] []
    c2Ladder rfl rfl (fun la hla => absurd hla (List.not_mem_nil la)) hov htop
  rw [h]
  refine ⟨rfl, ?_⟩
  show climbVelocity c2Ctx c2Body c2Ladder = _
  rw [climbVelocity]
  rw [if_neg (fun hq => hq rfl)]
  simp only [c2Body, c2Ladder, createHumanoidEntity, createLadderEntity]
  norm_num

/-! ## C8: the HUMANOID bit never enters a humanoid's mask -/

/-- The jump step never touches the collision mask. -/
theorem aiJump_mask (ctx : AiCtx) (rand : AiRand) (b : Body)
    (d : HumanoidData) : (aiJump ctx rand b d).mask = b.mask := by
  rw [aiJump]
  split
  · rfl
  · split
    · rfl
    · rfl

/-- The walk step never touches the collision mask. -/
theorem aiWalk_mask (ctx : AiCtx) (rand : AiRand) (b : Body)
    (d : HumanoidData) : (aiWalk ctx rand b d).1.mask = b.mask := by
  rw [aiWalk]
  split
  · rw [aiJump_mask]
    split
    · rfl
    · rfl
  · rw [aiJump_mask]

/-- The hang/walk stage never touches the collision mask. -/
theorem aiRest_mask (ctx : AiCtx) (rand : AiRand) (b : Body)
    (d : HumanoidData) : (aiRest ctx rand b d).1.mask = b.mask := by
  rw [aiRest]
  split <;> split <;> simp [aiWalk_mask]

/-- The jump step never touches the climbing flag of the record it is
given. -/
theorem aiWalk_isClimbing (ctx : AiCtx) (rand : AiRand) (b : Body)
    (d : HumanoidData) : (aiWalk ctx rand b d).2.isClimbing = d.isClimbing := by
  rw [aiWalk]
  split
  · dsimp only
    split
    · rfl
    · rfl
  · rfl

/-- The hang/walk stage never touches the climbing flag. -/
theorem aiRest_isClimbing (ctx : AiCtx) (rand : AiRand) (b : Body)
    (d : HumanoidData) :
    (aiRest ctx rand b d).2.isClimbing = d.isClimbing := by
  rw [aiRest]
  split <;> split <;> simp [aiWalk_isClimbing]

/-- The climbing outcome of the ladder step: forced velocity, pinned
angle, platform bit dropped. -/
def climbBody (ctx : AiCtx) (b ld : Body) : Body :=
  { b with vel := climbVelocity ctx b ld, isOnLadderTop := false, mask := climbMask, angle := 0 }

/-- The climbing outcome on the AI record: climbing flag set, leg phase
advanced. -/
def climbData (d : HumanoidData) : HumanoidData :=
  { d with isClimbing := true, legPhase := d.legPhase + 1 / 5 }

/-- The body state entering the hang/walk stage when no ladder overlaps:
ladder-top flag cleared, default mask restored. -/
def walkEntryBody (b : Body) : Body :=
  { b with isOnLadderTop := false, mask := defaultMask }

/-- The body state entering the hang/walk stage from the ladder-top
branch: vertical velocity damped by one half, ladder-top flag set, default
mask restored. -/
def ladderTopBody (b : Body) : Body :=
  { b with vel := (b.vel.1, b.vel.2 * (1 / 2)), isOnLadderTop := true, mask := defaultMask }

/-- The record with the climbing flag cleared, as passed on by the
non-climbing branches of the ladder step. -/
def noClimbData (d : HumanoidData) : HumanoidData :=
  { d with isClimbing := false }

/-- Case analysis of the per-tick mask update: a tick ends with the
default mask (not climbing, or on the ladder top), the climb mask
(climbing and not on top), or — only for a bubbled humanoid whose whole
tick is skipped — the incoming mask. -/
theorem aiTickOne_mask (ctx : AiCtx) (rand : AiRand) (b : Body)
    (d : HumanoidData) :
    ((aiTickOne ctx rand b d).1.mask = defaultMask ∧
      (aiTickOne ctx rand b d).2.isClimbing = false) ∨
    ((aiTickOne ctx rand b d).1.mask = climbMask ∧
      (aiTickOne ctx rand b d).2.isClimbing = true) ∨
    (aiTickOne ctx rand b d = (b, d) ∧ b.inBubble = true) := by
  cases hB : b.inBubble with
  | true =>
      refine Or.inr (Or.inr ⟨?_, rfl⟩)
      rw [aiTickOne, hB]
      rfl
  | false =>
      cases hscan : ladderScan b
          (ctx.entities.filter (fun e => e.label = "Ladder")) with
      | none =>
          have heq : aiTickOne ctx rand b d =
              aiRest ctx rand (walkEntryBody b) (noClimbData d) := by
            rw [aiTickOne, hB]
            rw [if_neg (by decide)]
            simp only [hscan]
            simp only [walkEntryBody, noClimbData, hB]
          refine Or.inl ⟨?_, ?_⟩
          · rw [heq, aiRest_mask]
            rfl
          · rw [heq, aiRest_isClimbing]
            rfl
      | some ld =>
          by_cases htop : b.pos.2 < (boundsMin ld).2 + 20
          · have heq : aiTickOne ctx rand b d =
                aiRest ctx rand (ladderTopBody b) (noClimbData d) := by
              rw [aiTickOne, hB]
              rw [if_neg (by decide)]
              simp only [hscan]
              rw [if_pos htop]
              simp only [ladderTopBody, noClimbData, hB]
            refine Or.inl ⟨?_, ?_⟩
            · rw [heq, aiRest_mask]
              rfl
            · rw [heq, aiRest_isClimbing]
              rfl
          · have heq : aiTickOne ctx rand b d =
                (climbBody ctx b ld, climbData d) := by
              rw [aiTickOne, hB]
              rw [if_neg (by decide)]
              simp only [hscan]
              rw [if_neg htop]
              simp only [climbBody, climbData, climbVelocity, hB]
            exact Or.inr (Or.inl ⟨by rw [heq]; rfl, by rw [heq]; rfl⟩)

/-- The bubble scan leaves a humanoid's mask alone unless it captures it,
in which case the mask becomes the ground-only `0x0001`. -/
theorem captureScan_mask (h : Body) (bs : List Body) :
    (captureScan h bs).2.mask = h.mask ∨
    (captureScan h bs).2.mask = 0x0001 := by
  induction bs with
  | nil => exact Or.inl rfl
  | cons b rest ih =>
      rw [captureScan]
      split
      · exact Or.inr rfl
      · exact ih

/-- Same statement for the whole per-humanoid capture step. -/
theorem captureOne_mask (bs : List Body) (h : Body) :
    (captureOne bs h).2.mask = h.mask ∨
    (captureOne bs h).2.mask = 0x0001 := by
  rw [captureOne]
  split
  · exact Or.inl rfl
  · exact captureScan_mask h bs

/-- The collision masks a humanoid body can carry in any reachable
program state: the creation mask, then anything the per-tick mask update
or the bubble-capture pass can produce from a reachable mask. -/
inductive MaskReach : ℕ → Prop
  | init (i : ℕ) (x y : ℚ) : MaskReach (createHumanoidEntity i x y).mask
  | ai (ctx : AiCtx) (rand : AiRand) (b : Body) (d : HumanoidData) :
      MaskReach b.mask → MaskReach ((aiTickOne ctx rand b d).1.mask)
  | capture (bs : List Body) (h : Body) :
      MaskReach h.mask → MaskReach ((captureOne bs h).2.mask)

/-- **C8.**  A humanoid's collision mask never contains the `HUMANOID`
category: at creation it is `DEFAULT | DYNAMIC`; each AI tick sets it to
`DEFAULT | DYNAMIC | PLATFORM` (not climbing, or on the ladder top) or to
that set with `PLATFORM` removed (climbing and not on top), leaving it
untouched only for a skipped bubbled humanoid; bubble capture narrows it
to `DEFAULT`; and along every such update chain the `HUMANOID` bit stays
absent. -/
theorem c8_mask_no_humanoid_bit :
    (∀ i : ℕ, ∀ x y : ℚ, (createHumanoidEntity i x y).mask =
      (CATEGORY_DEFAULT ||| CATEGORY_DYNAMIC)) ∧
    climbMask = CATEGORY_DEFAULT ||| CATEGORY_DYNAMIC ∧
    defaultMask = CATEGORY_DEFAULT ||| CATEGORY_DYNAMIC ||| CATEGORY_PLATEFORM ∧
    (∀ m : ℕ, MaskReach m → m &&& CATEGORY_HUMANOID = 0) := by
  refine ⟨fun i x y => rfl, by decide, by decide, ?_⟩
  intro m hm
  induction hm with
  | init i x y =>
      exact (by decide :
        (CATEGORY_DEFAULT ||| CATEGORY_DYNAMIC) &&& CATEGORY_HUMANOID = 0)
  | ai ctx rand b d hr ih =>
      rcases aiTickOne_mask ctx rand b d with ⟨hm', -⟩ | ⟨hm', -⟩ | ⟨heq, -⟩
      · rw [hm']
        decide
      · rw [hm']
        decide
      · rw [heq]
        exact ih
  | capture bs h hr ih =>
      rcases captureOne_mask bs h with hm' | hm'
      · rw [hm']
        exact ih
      · rw [hm']
        decide

/-- **C8 witness**: a freshly created humanoid's mask — and, through the
reachability argument, every mask derived from it — carries no `HUMANOID`
bit. -/
theorem c8_mask_no_humanoid_bit_witness :
    (createHumanoidEntity 1 0 0).mask &&& CATEGORY_HUMANOID = 0 :=
  c8_mask_no_humanoid_bit.2.2.2 (createHumanoidEntity 1 0 0).mask
    (MaskReach.init 1 0 0)

/-! ## C1: bubble capture -/

/-- The bubble scan, when some bubble is eligible, splits the bubble list
at the first eligible bubble: the bubbles before it are untouched (and
ineligible), exactly that bubble's `containedEntity` is set to the
humanoid, the bubbles after it are untouched, and the humanoid comes out
captured with the ground-only mask. -/
theorem captureScan_found (h : Body) (bs : List Body)
    (hex : ∃ b ∈ bs, eligible h b) :
    ∃ l₁ b l₂, bs = l₁ ++ b :: l₂ ∧
      (∀ b' ∈ l₁, ¬eligible h b') ∧ eligible h b ∧
      captureScan h bs =
        (l₁ ++ ({ b with containedEntity := some h.id } :: l₂),
         { h with inBubble := true, mask := 0x0001 }) := by
  induction bs with
  | nil => exact absurd hex (by simp)
  | cons b rest ih =>
      by_cases hb : eligible h b
      · refine ⟨[], b, rest, rfl, by simp, hb, ?_⟩
        rw [captureScan, if_pos hb]
        rfl
      · have hex' : ∃ b' ∈ rest, eligible h b' := by
          rcases hex with ⟨b', hb', he'⟩
          rcases List.mem_cons.mp hb' with rfl | hmem
          · exact absurd he' hb
          · exact ⟨b', hmem, he'⟩
        obtain ⟨l₁, bf, l₂, hsplit, hno, hel, heq⟩ := ih hex'
        refine ⟨b :: l₁, bf, l₂, by rw [hsplit]; rfl, ?_, hel, ?_⟩
        · intro b' hb'
          rcases List.mem_cons.mp hb' with rfl | hmem
          · exact hb
          · exact hno b' hmem
        · rw [captureScan, if_neg hb, heq]
          rfl

/-- Humanoids already in a bubble pass through the capture pass without
touching the bubble list. -/
theorem capturePassAux_skip (bs : List Body) (hs : List Body)
    (hall : ∀ h ∈ hs, h.inBubble = true) :
    capturePassAux bs hs = (bs, hs) := by
  induction hs with
  | nil => rfl
  | cons h rest ih =>
      rw [capturePassAux]
      rw [captureOne, if_pos (hall h (List.mem_cons_self h rest))]
      rw [ih (fun h' hmem => hall h' (List.mem_cons_of_mem h hmem))]

/-- A prefix of already-captured humanoids passes through the capture
pass unchanged, without touching the bubble list. -/
theorem capturePassAux_pre (bs : List Body) (hpre rest : List Body)
    (hall : ∀ h' ∈ hpre, h'.inBubble = true) :
    capturePassAux bs (hpre ++ rest) =
      ((capturePassAux bs rest).1, hpre ++ (capturePassAux bs rest).2) := by
  induction hpre with
  | nil => rfl
  | cons a as ih =>
      rw [List.cons_append, capturePassAux]
      rw [captureOne, if_pos (hall a (List.mem_cons_self a as))]
      rw [ih (fun h' hmem => hall h' (List.mem_cons_of_mem a hmem))]
      rfl

/-- **C1.**  In one capture pass in which `h` is the only humanoid not
already contained, if `h` is within the capture distance of at least one
empty bubble (and no bubble already references it), then: `h` comes out
contained with its mask narrowed to the ground-only category; the bubble
list splits at the *first* eligible bubble, exactly that bubble's
`containedEntity` is set to `h`, and every other bubble — in particular
any other empty bubble also within capture distance — keeps its previous
`containedEntity` unchanged; afterwards exactly one bubble references
`h`. -/
theorem c1_bubble_capture (bs hpre hpost : List Body) (h : Body)
    (hpreIn : ∀ h' ∈ hpre, h'.inBubble = true)
    (hpostIn : ∀ h' ∈ hpost, h'.inBubble = true)
    (hfree : h.inBubble = false)
    (hnotmine : ∀ b ∈ bs, b.containedEntity ≠ some h.id)
    (hex : ∃ b ∈ bs, eligible h b) :
    ∃ l₁ b l₂, bs = l₁ ++ b :: l₂ ∧
      (∀ b' ∈ l₁, ¬eligible h b') ∧ eligible h b ∧
      capturePass { hs := hpre ++ h :: hpost, bs := bs } =
        { hs := hpre ++ ({ h with inBubble := true, mask := 0x0001 }) :: hpost,
          bs := l₁ ++ ({ b with containedEntity := some h.id }) :: l₂ } ∧
      ((l₁ ++ ({ b with containedEntity := some h.id }) :: l₂).filter
        (fun b' => b'.containedEntity = some h.id)).length = 1 := by
  obtain ⟨l₁, b, l₂, hsplit, hno, hel, hscan⟩ := captureScan_found h bs hex
  refine ⟨l₁, b, l₂, hsplit, hno, hel, ?_, ?_⟩
  · rw [capturePass]
    rw [capturePassAux_pre bs hpre (h :: hpost) hpreIn]
    rw [capturePassAux]
    rw [captureOne, if_neg (by rw [hfree]; exact Bool.false_ne_true)]
    rw [hscan]
    rw [capturePassAux_skip _ hpost hpostIn]
  · have hl₁ : ∀ b' ∈ l₁,
        ¬(b'.containedEntity = some h.id) := by
      intro b' hb'
      exact hnotmine b' (hsplit ▸ List.mem_append_left _ hb')
    have hl₂ : ∀ b' ∈ l₂,
        ¬(b'.containedEntity = some h.id) := by
      intro b' hb'
      refine hnotmine b' (hsplit ▸ ?_)
      exact List.mem_append_right _ (List.mem_cons_of_mem b hb')
    rw [List.filter_append, List.filter_cons]
    rw [List.filter_eq_nil_iff.mpr (by intro a ha; simpa using hl₁ a ha)]
    rw [List.filter_eq_nil_iff.mpr (by intro a ha; simpa using hl₂ a ha)]
    simp

/-- The un-contained humanoid of the two-bubble capture scenario. -/
def c1Humanoid : Body := createHumanoidEntity 5 0 0

/-- First empty bubble, 10 px from the humanoid. -/
def c1Bubble1 : Body := createBubbleEntity 6 10 0

/-- Second empty bubble, `√1800 ≈ 42.4` px from the humanoid — also
within the 45 px capture distance. -/
def c1Bubble2 : Body := createBubbleEntity 7 30 30

/-- **C1 witness**: one un-contained humanoid with two empty bubbles both
within capture distance — after the pass the humanoid is contained with
the ground-only mask, exactly one bubble's `containedEntity` is set to it,
and the other bubble is returned unchanged. -/
theorem c1_bubble_capture_witness :
    ∃ l₁ b l₂, [c1Bubble1, c1Bubble2] = l₁ ++ b :: l₂ ∧
      (∀ b' ∈ l₁, ¬eligible c1Humanoid b') ∧ eligible c1Humanoid b ∧
      capturePass { hs := [c1Humanoid], bs := [c1Bubble1, c1Bubble2] } =
        { hs := [{ c1Humanoid with inBubble := true, mask := 0x0001 }],
          bs := l₁ ++ ({ b with containedEntity := some c1Humanoid.id }) :: l₂ } ∧
      ((l₁ ++ ({ b with containedEntity := some c1Humanoid.id }) :: l₂).filter
        (fun b' => b'.containedEntity = some c1Humanoid.id)).length = 1 :=
  c1_bubble_capture [c1Bubble1, c1Bubble2] [] [] c1Humanoid
    (fun h' hm => absurd hm (List.not_mem_nil h'))
    (fun h' hm => absurd hm (List.not_mem_nil h'))
    rfl
    (by decide)
    ⟨c1Bubble1, List.mem_cons_self _ _,
      ⟨rfl, by norm_num [dist2, c1Humanoid, c1Bubble1, createBubbleEntity,
        createHumanoidEntity]⟩⟩

/-! ## C10: a captured humanoid never comes back -/

/-- **C10.**  No modelled operation ever resets a humanoid's `inBubble`
flag (or any other field of a surviving body): a bubbled humanoid's whole
AI tick is skipped, returning body and record untouched; the capture pass
skips it and, when every humanoid is already contained, is the identity;
and the eraser, the cleanup pass, and clear-all only ever *remove* bodies
— every body still in the world afterwards (for instance the humanoid
left behind when its carrying bubble is erased or swept) is the very body
that was there before, `inBubble = true`, ground-only mask and all. -/
theorem c10_in_bubble_permanent :
    (∀ (ctx : AiCtx) (rand : AiRand) (b : Body) (d : HumanoidData),
      b.inBubble = true → aiTickOne ctx rand b d = (b, d)) ∧
    (∀ (bs : List Body) (h : Body), h.inBubble = true →
      captureOne bs h = (bs, h)) ∧
    (∀ st : CaptureState, (∀ h ∈ st.hs, h.inBubble = true) →
      capturePass st = st) ∧
    (∀ (p : Pt) (s : CanvasState), ∀ b ∈ (eraseAt p s).world, b ∈ s.world) ∧
    (∀ (w ht : ℚ) (s : CanvasState),
      ∀ b ∈ (cleanupTick w ht s).world, b ∈ s.world) ∧
    (∀ s : CanvasState, ∀ b ∈ (handleClear s).world, b ∈ s.world) := by
  refine ⟨?_, ?_, ?_, ?_, ?_, ?_⟩
  · intro ctx rand b d hb
    rw [aiTickOne, if_pos hb]
  · intro bs h hb
    rw [captureOne, if_pos hb]
  · intro st hall
    rw [capturePass, capturePassAux_skip st.bs st.hs hall]
  · intro p s b hb
    exact List.mem_of_mem_filter hb
  · intro w ht s b hb
    exact List.mem_of_mem_filter hb
  · intro s b hb
    exact List.mem_of_mem_filter hb

/-- The record of the captured humanoid used in the C10 witness. -/
def c10Rec : HumanoidData :=
  { direction := 1, legPhase := 0, stuckCounter := 0 }

/-- A humanoid already captured by a bubble: flag set, ground-only
mask. -/
def c10Humanoid : Body :=
  { createHumanoidEntity 8 0 0 with inBubble := true, mask := 0x0001 }

/-- **C10 witness**: the captured humanoid's AI tick is a no-op, and a
later capture pass skips it. -/
theorem c10_in_bubble_permanent_witness :
    aiTickOne { walls := [], entities := [] } ⟨false, 0, false⟩
      c10Humanoid c10Rec = (c10Humanoid, c10Rec) ∧
    captureOne [createBubbleEntity 9 0 0] c10Humanoid =
      ([createBubbleEntity 9 0 0], c10Humanoid) :=
  ⟨c10_in_bubble_permanent.1 { walls := [], entities := [] }
      ⟨false, 0, false⟩ c10Humanoid c10Rec rfl,
   c10_in_bubble_permanent.2.1 [createBubbleEntity 9 0 0] c10Humanoid rfl⟩
